import Mathlib

/-!
Verification development for the feedback-classifier repository.

The Python sources (`models.py`, `database.py` (SQLite backend),
`job_manager.py`, `ai_service.py`, `query_service.py`) are shallowly
embedded below:

* SQLite rows become Lean structures; TEXT columns holding JSON dumps of
  string lists (`topics`) or number lists (`embedding`) are modelled as the
  decoded value (`Option (List String)` / `Option (List Rat)`), with `none`
  for SQL NULL; the `LIKE` predicate used by the topics filter is applied to
  a re-serialisation of the decoded list.
* `datetime` values are modelled as integer timestamps; ISO-8601 string
  comparison in SQL agrees with the numeric order.
* Python floats are modelled as `Rat` where only arithmetic is involved;
  cosine similarity values are real numbers, and the NaN produced by
  numpy's `0.0/0.0` on all-zero vectors is modelled as `none`.
* Python's stable `list.sort` and SQL `ORDER BY` are modelled with
  `List.insertionSort`, which is a stable sort, hence pointwise equal to
  Python's Timsort for a total transitive comparison.  Sorting behaviour on
  NaN keys is not modelled; theorems about ranking exclude NaN scores.
* Python `dict` (insertion-ordered) becomes an association list.
-/

/-! ## models.py -/

/-- `FeedbackSource` enum from `models.py`. -/
inductive FeedbackSource
  | nps | zendesk | intercom | email | other
deriving DecidableEq

/-- `Sentiment` enum from `models.py`. -/
inductive Sentiment
  | positive | neutral | negative
deriving DecidableEq

/-- `Urgency` enum from `models.py`. -/
inductive Urgency
  | low | medium | high
deriving DecidableEq

/-- `Intent` enum from `models.py`. -/
inductive Intent
  | churn_risk | upsell_opportunity | support_needed | feature_advocacy | general_feedback
deriving DecidableEq

/-- `UserProfile` dataclass from `models.py`.  `signup_date` is an integer
timestamp; `custom_traits` is the decoded JSON object as an association
list. -/
structure UserProfile where
  user_id : String
  email : Option String := none
  subscription_type : Option String := none
  mrr : Option Rat := none
  company_name : Option String := none
  industry : Option String := none
  signup_date : Option Int := none
  custom_traits : List (String × String) := []
deriving DecidableEq

/-- `Classification` dataclass from `models.py`. -/
structure Classification where
  sentiment : Sentiment
  topics : List String
  urgency : Urgency
  intent : Intent
  summary : String
  confidence : Rat := 0
deriving DecidableEq

/-- `FeedbackItem` dataclass from `models.py`. -/
structure FeedbackItem where
  id : String
  text : String
  source : FeedbackSource
  created_at : Int
  user_profile : Option UserProfile := none
  classification : Option Classification := none
  embedding : Option (List Rat) := none
  nps_score : Option Int := none
  ticket_id : Option String := none
  ticket_priority : Option String := none
deriving DecidableEq

/-- `SearchQuery` dataclass from `models.py`. -/
structure SearchQuery where
  query_text : Option String := none
  sources : Option (List FeedbackSource) := none
  sentiments : Option (List Sentiment) := none
  topics : Option (List String) := none
  urgency_levels : Option (List Urgency) := none
  intents : Option (List Intent) := none
  subscription_types : Option (List String) := none
  min_mrr : Option Rat := none
  max_mrr : Option Rat := none
  industries : Option (List String) := none
  min_nps : Option Int := none
  max_nps : Option Int := none
  start_date : Option Int := none
  end_date : Option Int := none
  limit : Nat := 20
  offset : Nat := 0
deriving DecidableEq

/-- `SearchResult` dataclass from `models.py` (the optional AI `summary`
field is never set by `database.py` and is omitted). -/
structure SearchResult where
  items : List FeedbackItem
  total_count : Nat
  query : SearchQuery

/-! ## database.py: rows and the SQLite state -/

/-- One row of the `feedback` table created by `SQLiteDatabase.initialize`.
The `topics` and `embedding` TEXT columns hold JSON dumps and are modelled
as the decoded values (`none` = NULL); enum-valued TEXT columns are
modelled by the enums themselves (the stored strings are the distinct
`.value` strings, so this is faithful). -/
structure FeedbackRow where
  id : String
  text : String
  source : FeedbackSource
  created_at : Int
  user_id : Option String
  sentiment : Option Sentiment
  topics : Option (List String)
  urgency : Option Urgency
  intent : Option Intent
  summary : Option String
  confidence : Option Rat
  nps_score : Option Int
  ticket_id : Option String
  ticket_priority : Option String
  embedding : Option (List Rat)
deriving DecidableEq

/-- One row of the `user_profiles` table. -/
structure ProfileRow where
  user_id : String
  email : Option String
  subscription_type : Option String
  mrr : Option Rat
  company_name : Option String
  industry : Option String
  signup_date : Option Int
  custom_traits : List (String × String)
deriving DecidableEq

/-- The SQLite database state: the two tables, in insertion order. -/
structure SQLiteDB where
  profiles : List ProfileRow := []
  feedback : List FeedbackRow := []
deriving DecidableEq

/-- `SQLiteDatabase.insert_user_profile`: `INSERT OR REPLACE` keyed on
`user_id` (the conflicting row is deleted and the new one appended). -/
def insert_user_profile (p : UserProfile) (db : SQLiteDB) : SQLiteDB :=
  { db with profiles :=
      (db.profiles.filter (fun q => !(q.user_id == p.user_id))) ++
        [⟨p.user_id, p.email, p.subscription_type, p.mrr, p.company_name,
          p.industry, p.signup_date, p.custom_traits⟩] }

/-- The row written by `SQLiteDatabase.insert_feedback`: `fresh` models
`str(uuid.uuid4())`, used only when `feedback.id` is falsy (the empty
string); a falsy `feedback.embedding` (`None` or the empty list) is stored
as NULL. -/
def insertedRow (fresh : String) (f : FeedbackItem) : FeedbackRow :=
    { id := if f.id = "" then fresh else f.id
      text := f.text
      source := f.source
      created_at := f.created_at
      user_id := f.user_profile.map (fun p => p.user_id)
      sentiment := f.classification.map (fun c => c.sentiment)
      topics := f.classification.map (fun c => c.topics)
      urgency := f.classification.map (fun c => c.urgency)
      intent := f.classification.map (fun c => c.intent)
      summary := f.classification.map (fun c => c.summary)
      confidence := f.classification.map (fun c => c.confidence)
      nps_score := f.nps_score
      ticket_id := f.ticket_id
      ticket_priority := f.ticket_priority
      embedding := match f.embedding with
        | some (x :: xs) => some (x :: xs)
        | _ => none }

/-- `SQLiteDatabase.insert_feedback`: assign the id, upsert the referenced
profile first, then append the feedback row; the assigned id is returned. -/
def insert_feedback (fresh : String) (f : FeedbackItem) (db : SQLiteDB) :
    String × SQLiteDB :=
  let fid := if f.id = "" then fresh else f.id
  let db1 := match f.user_profile with
    | some p => insert_user_profile p db
    | none => db
  (fid, { db1 with feedback := db1.feedback ++ [insertedRow fresh f] })

/-- `SQLiteDatabase._row_to_feedback`: reconstruct a `FeedbackItem` from a
row and an optional profile row.  A classification is rebuilt only when the
`sentiment` column is truthy (every stored sentiment string is non-empty);
the `or`-defaults of the source (`row["summary"] or ""`,
`row["confidence"] or 0.0`) coincide with `Option.getD` on the decoded
columns. -/
def row_to_feedback (row : FeedbackRow) (user_row : Option ProfileRow) :
    FeedbackItem :=
  let user_profile : Option UserProfile := user_row.map (fun u =>
    { user_id := u.user_id
      email := u.email
      subscription_type := u.subscription_type
      mrr := u.mrr
      company_name := u.company_name
      industry := u.industry
      signup_date := u.signup_date
      custom_traits := u.custom_traits })
  let classification : Option Classification := match row.sentiment with
    | some s => some
        { sentiment := s
          topics := row.topics.getD []
          urgency := row.urgency.getD Urgency.low
          intent := row.intent.getD Intent.general_feedback
          summary := row.summary.getD ""
          confidence := row.confidence.getD 0 }
    | none => none
  { id := row.id
    text := row.text
    source := row.source
    created_at := row.created_at
    user_profile := user_profile
    classification := classification
    embedding := row.embedding
    nps_score := row.nps_score
    ticket_id := row.ticket_id
    ticket_priority := row.ticket_priority }

/-- The profile row fetched for a feedback row: `if row["user_id"]:` is a
truthiness test, so an empty-string `user_id` fetches no profile. -/
def fetch_profile (db : SQLiteDB) (uid : Option String) : Option ProfileRow :=
  match uid with
  | some u => if u = "" then none else db.profiles.find? (fun p => p.user_id == u)
  | none => none

/-- `SQLiteDatabase.get_feedback`: first row with the given id (`fetchone`),
converted with its profile row. -/
def get_feedback (feedback_id : String) (db : SQLiteDB) : Option FeedbackItem :=
  (db.feedback.find? (fun r => r.id == feedback_id)).map
    (fun row => row_to_feedback row (fetch_profile db row.user_id))

/-- `SQLiteDatabase.update_classification`: `UPDATE feedback SET` the six
classification columns `WHERE id = ?`. -/
def update_classification (feedback_id : String) (c : Classification)
    (db : SQLiteDB) : SQLiteDB :=
  { db with feedback := db.feedback.map (fun r =>
      if r.id = feedback_id then
        { r with
          sentiment := some c.sentiment
          topics := some c.topics
          urgency := some c.urgency
          intent := some c.intent
          summary := some c.summary
          confidence := some c.confidence }
      else r) }

/-! ## database.py: search -/

/-- SQL `LIKE` pattern matching on character lists: `%` matches any
(possibly empty) run, `_` any single character; SQLite compares
case-insensitively (ASCII folding, modelled with `Char.toLower`). -/
def likeMatchChars : List Char → List Char → Bool
  | [], [] => true
  | [], _ :: _ => false
  | '%' :: ps, [] => likeMatchChars ps []
  | '%' :: ps, c :: s => likeMatchChars ps (c :: s) || likeMatchChars ('%' :: ps) s
  | '_' :: ps, _ :: s => likeMatchChars ps s
  | _ :: _, [] => false
  | p :: ps, c :: s => (p.toLower == c.toLower) && likeMatchChars ps s
termination_by p s => (s.length, p.length)

/-- SQL `LIKE` on strings. -/
def likeMatch (pattern target : String) : Bool :=
  likeMatchChars pattern.data target.data

/-- `json.dumps` escaping for one string (the common escapes; `ensure_ascii`
encoding of non-ASCII characters is not modelled). -/
def jsonEscape (s : String) : String :=
  s.data.foldl (fun acc c =>
    if c = '"' then acc ++ "\\\""
    else if c = '\\' then acc ++ "\\\\"
    else if c = '\n' then acc ++ "\\n"
    else if c = '\t' then acc ++ "\\t"
    else if c = '\r' then acc ++ "\\r"
    else acc.push c) ""

/-- `json.dumps` of a list of strings, as stored in the `topics` column. -/
def jsonDumpStrings (ts : List String) : String :=
  "[" ++ String.intercalate ", " (ts.map (fun t => "\"" ++ jsonEscape t ++ "\"")) ++ "]"

/-- The topics condition of `SQLiteDatabase.search`: for each requested
topic, `f.topics LIKE '%"topic"%'`; a NULL column satisfies no `LIKE`. -/
def topicsCondition (requested : List String) (col : Option (List String)) : Bool :=
  requested.any (fun t =>
    match col with
    | some ts => likeMatch ("%\"" ++ t ++ "\"%") (jsonDumpStrings ts)
    | none => false)

/-- The `WHERE` conjunction built by `SQLiteDatabase.search`.  Each filter
guard reproduces the Python truthiness tests (`if query.sources:` skips the
condition for `None` and for the empty list; `min_mrr`/`min_nps` etc. use
`is not None`).  `u` is the LEFT-JOINed profile row; a SQL comparison
against NULL is not satisfied. -/
def matchesQuery (db : SQLiteDB) (q : SearchQuery) (r : FeedbackRow) : Bool :=
  let u : Option ProfileRow :=
    r.user_id.bind (fun uid => db.profiles.find? (fun p => p.user_id == uid))
  (match q.sources with
    | some (s :: ss) => decide (r.source ∈ s :: ss)
    | _ => true) &&
  (match q.sentiments with
    | some (s :: ss) => match r.sentiment with
      | some v => decide (v ∈ s :: ss)
      | none => false
    | _ => true) &&
  (match q.topics with
    | some (t :: ts) => topicsCondition (t :: ts) r.topics
    | _ => true) &&
  (match q.urgency_levels with
    | some (s :: ss) => match r.urgency with
      | some v => decide (v ∈ s :: ss)
      | none => false
    | _ => true) &&
  (match q.intents with
    | some (s :: ss) => match r.intent with
      | some v => decide (v ∈ s :: ss)
      | none => false
    | _ => true) &&
  (match q.subscription_types with
    | some (s :: ss) => match u with
      | some p => match p.subscription_type with
        | some v => decide (v ∈ s :: ss)
        | none => false
      | none => false
    | _ => true) &&
  (match q.min_mrr with
    | some m => match u with
      | some p => match p.mrr with
        | some v => decide (m ≤ v)
        | none => false
      | none => false
    | none => true) &&
  (match q.max_mrr with
    | some m => match u with
      | some p => match p.mrr with
        | some v => decide (v ≤ m)
        | none => false
      | none => false
    | none => true) &&
  (match q.industries with
    | some (s :: ss) => match u with
      | some p => match p.industry with
        | some v => decide (v ∈ s :: ss)
        | none => false
      | none => false
    | _ => true) &&
  (match q.min_nps with
    | some m => match r.nps_score with
      | some v => decide (m ≤ v)
      | none => false
    | none => true) &&
  (match q.max_nps with
    | some m => match r.nps_score with
      | some v => decide (v ≤ m)
      | none => false
    | none => true) &&
  (match q.start_date with
    | some d => decide (d ≤ r.created_at)
    | none => true) &&
  (match q.end_date with
    | some d => decide (r.created_at ≤ d)
    | none => true)

/-- Sum of squares of a rational vector (`norm(v)` is its square root). -/
def sumSq (v : List Rat) : Rat :=
  (v.map (fun x => x * x)).sum

/-- Dot product of two rational vectors (numpy broadcasting/length issues
are out of scope; all embeddings share one dimensionality). -/
def dotProduct (a b : List Rat) : Rat :=
  ((a.zip b).map (fun p => p.1 * p.2)).sum

/-- `cosine_similarity` from `database.py`:
`np.dot(a, b) / (np.linalg.norm(a) * np.linalg.norm(b))`.
The float denominator `norm(a) * norm(b)` is zero exactly when either sum
of squares is zero, and then the numerator is also zero, so numpy produces
the float NaN (`0.0/0.0`), modelled as `none`; otherwise the real value of
the quotient is returned. -/
noncomputable def cosine_similarity (vec1 vec2 : List Rat) : Option Real :=
  if sumSq vec1 = 0 ∨ sumSq vec2 = 0 then none
  else some ((dotProduct vec1 vec2 : Real) /
    (Real.sqrt (sumSq vec1 : Real) * Real.sqrt (sumSq vec2 : Real)))

/-- The score paired with each item in the semantic rerank of
`SQLiteDatabase.search`: a truthy embedding is scored by cosine similarity
(possibly NaN), a falsy one (`None` or `[]`) by `0.0`. -/
noncomputable def itemScore (qe : List Rat) (it : FeedbackItem) : Option Real :=
  match it.embedding with
  | some (x :: xs) => cosine_similarity qe (x :: xs)
  | _ => some 0

/-- Numeric value used when comparing sort keys.  Mapping NaN (`none`) to 0
is a totalization device only: Python's `list.sort` implements no
consistent order on NaN keys (a NaN key can leave the surrounding items
unsorted), so every ranking theorem carries a hypothesis that *no* score in
the candidate list is NaN — on that domain each key is `some r` and the
stable descending sort modelled below coincides with the source's. -/
noncomputable def scoreVal (s : Option Real) : Real :=
  s.getD 0

/-- Comparison for `items_with_scores.sort(key=lambda x: x[1], reverse=True)`:
descending by score. -/
noncomputable def scoreLE (x y : FeedbackItem × Option Real) : Prop :=
  scoreVal y.2 ≤ scoreVal x.2

noncomputable instance : DecidableRel scoreLE :=
  fun _ _ => Classical.propDecidable _

instance : IsTotal (FeedbackItem × Option Real) scoreLE :=
  ⟨fun a b => le_total (scoreVal b.2) (scoreVal a.2)⟩

instance : IsTrans (FeedbackItem × Option Real) scoreLE :=
  ⟨fun _ _ _ h1 h2 => le_trans h2 h1⟩

/-- The semantic rerank of `SQLiteDatabase.search` (lines 402-414): score
every item, stable-sort by score descending, drop the scores. -/
noncomputable def rerank (qe : List Rat) (items : List FeedbackItem) :
    List FeedbackItem :=
  ((items.map (fun it => (it, itemScore qe it))).insertionSort scoreLE).map
    Prod.fst

/-- `ORDER BY f.created_at DESC` (ISO timestamp strings compare like the
numeric timestamps). -/
def createdDescLE (a b : FeedbackRow) : Prop :=
  b.created_at ≤ a.created_at

instance : DecidableRel createdDescLE :=
  fun a b => inferInstanceAs (Decidable (b.created_at ≤ a.created_at))

instance : IsTotal FeedbackRow createdDescLE :=
  ⟨fun a b => le_total b.created_at a.created_at⟩

instance : IsTrans FeedbackRow createdDescLE :=
  ⟨fun _ _ _ h1 h2 => le_trans h2 h1⟩

/-- The filtered set of `SQLiteDatabase.search`: the rows satisfying the
`WHERE` conjunction (`rows` in the source, before `ORDER BY`). -/
def filteredRows (db : SQLiteDB) (q : SearchQuery) : List FeedbackRow :=
  db.feedback.filter (matchesQuery db q)

/-- The converted items of `SQLiteDatabase.search` before the semantic
rerank: filtered rows ordered by `created_at DESC`, each converted with its
LEFT-JOINed profile row (`items` in the source). -/
def baseItems (db : SQLiteDB) (q : SearchQuery) : List FeedbackItem :=
  ((filteredRows db q).insertionSort createdDescLE).map
    (fun r => row_to_feedback r (fetch_profile db r.user_id))

/-- The ranked (pre-pagination) item list of `SQLiteDatabase.search`: the
semantic rerank runs only when both `query_embedding` and
`query.query_text` are truthy (`if query_embedding and query.query_text:`). -/
noncomputable def rankedItems (db : SQLiteDB) (q : SearchQuery)
    (query_embedding : Option (List Rat)) : List FeedbackItem :=
  match query_embedding, q.query_text with
  | some (x :: xs), some qt =>
      if qt = "" then baseItems db q else rerank (x :: xs) (baseItems db q)
  | _, _ => baseItems db q

/-- `SQLiteDatabase.search`: `total_count` is the size of the filtered set
(the `COUNT(*)` query with the same `WHERE` clause), and the returned items
are the ranked list paginated with `items[offset : offset + limit]`. -/
noncomputable def search (db : SQLiteDB) (q : SearchQuery)
    (query_embedding : Option (List Rat)) : SearchResult :=
  { items := ((rankedItems db q query_embedding).drop q.offset).take q.limit
    total_count := (filteredRows db q).length
    query := q }

/-! ## job_manager.py -/

/-- `JobStatus` enum. -/
inductive JobStatus
  | pending | running | completed | failed | cancelled
deriving DecidableEq

/-- A status is terminal when it is COMPLETED, FAILED or CANCELLED. -/
def JobStatus.isTerminal : JobStatus → Bool
  | .completed | .failed | .cancelled => true
  | _ => false

/-- `JobProgress` dataclass (all counters are Python ints). -/
structure JobProgress where
  current : Int := 0
  total : Int := 0
  successful : Int := 0
  errors : Int := 0
  message : String := ""
deriving DecidableEq

/-- Python `/` on ints: ZeroDivisionError (modelled as `Except.error`) for a
zero divisor, otherwise exact true division (floats idealised as `Rat`). -/
def pyDiv (a b : Int) : Except Unit Rat :=
  if b = 0 then Except.error () else Except.ok ((a : Rat) / (b : Rat))

/-- The `JobProgress.percentage` property: `0` when `total == 0`, otherwise
`(current / total) * 100`; `Except` records whether evaluating it raises. -/
def percentage (p : JobProgress) : Except Unit Rat :=
  if p.total = 0 then Except.ok 0
  else (pyDiv p.current p.total).map (fun q => q * 100)

/-- `Job` dataclass.  `result` is opaque and modelled as an optional
string; timestamps are integers. -/
structure Job where
  id : String
  type : String
  status : JobStatus := JobStatus.pending
  progress : JobProgress := {}
  result : Option String := none
  error : Option String := none
  created_at : Int
  started_at : Option Int := none
  completed_at : Option Int := none
deriving DecidableEq

/-- `JobManager` state: the insertion-ordered `jobs` dict as a list (keys
are the job ids) and `max_jobs`. -/
structure JobManagerState where
  jobs : List Job := []
  max_jobs : Nat := 100
deriving DecidableEq

/-- `JobManager._cleanup_old_jobs`: collect jobs in a terminal status, sort
them ascending by `completed_at or created_at` (a datetime is always
truthy), and delete the oldest half (`completed[:len(completed) // 2]`)
from the table. -/
def cleanup_old_jobs (jobs : List Job) : List Job :=
  let completed := jobs.filter (fun j => j.status.isTerminal)
  let sorted := completed.insertionSort
    (fun a b => (a.completed_at.getD a.created_at) ≤ (b.completed_at.getD b.created_at))
  let to_remove := sorted.take (completed.length / 2)
  let ids := to_remove.map (fun j => j.id)
  jobs.filter (fun j => !(ids.contains j.id))

/-- `dict.__setitem__`: replace the value in place if the key exists
(keeping its position), otherwise append. -/
def dictSet (jobs : List Job) (job : Job) : List Job :=
  if jobs.any (fun j => j.id == job.id) then
    jobs.map (fun j => if j.id = job.id then job else j)
  else jobs ++ [job]

/-- `JobManager.create_job`: build a PENDING job with a fresh short id,
run the cleanup when `len(self.jobs) >= self.max_jobs`, then insert the new
job. -/
def create_job (now : Int) (fresh : String) (job_type : String)
    (m : JobManagerState) : Job × JobManagerState :=
  let job : Job := { id := fresh, type := job_type, created_at := now }
  let jobs1 := if m.max_jobs ≤ m.jobs.length then cleanup_old_jobs m.jobs else m.jobs
  (job, { m with jobs := dictSet jobs1 job })

/-- `JobManager.cancel_job`: if the job exists and its status is PENDING or
RUNNING, set it to CANCELLED with a completion timestamp and return `true`;
otherwise return `false` and change nothing. -/
def cancel_job (now : Int) (job_id : String) (m : JobManagerState) :
    Bool × JobManagerState :=
  match m.jobs.find? (fun j => j.id == job_id) with
  | some j =>
      if j.status = JobStatus.pending ∨ j.status = JobStatus.running then
        (true, { m with jobs := m.jobs.map (fun x =>
          if x.id = job_id then
            { x with status := JobStatus.cancelled, completed_at := some now }
          else x) })
      else (false, m)
  | none => (false, m)

/-! ## ai_service.py: the classification response parser -/

/-- Decoded JSON values (`json.loads` output). -/
inductive Json
  | null
  | bool (b : Bool)
  | num (q : Rat)
  | str (s : String)
  | arr (elems : List Json)
  | obj (fields : List (String × Json))

/-- Python exceptions relevant to `AIService.classify_feedback`:
`except (json.JSONDecodeError, KeyError, ValueError)` catches the latter
two (and decode errors), but not `TypeError`. -/
inductive PyErr
  | typeError | keyError | valueError
deriving DecidableEq

/-- Whether the `except` clause of `classify_feedback` catches the error. -/
def PyErr.caught : PyErr → Bool
  | .keyError | .valueError => true
  | .typeError => false

/-- Python subscription `result[key]`: `KeyError` on a missing key of a
dict, `TypeError` when the decoded value is not a dict. -/
def getItem (j : Json) (key : String) : Except PyErr Json :=
  match j with
  | .obj fields => match fields.lookup key with
    | some v => Except.ok v
    | none => Except.error PyErr.keyError
  | _ => Except.error PyErr.typeError

/-- `result.get(key, default)`: only reached after a successful `getItem`,
so the non-dict branch is unreachable (modelled as `TypeError` for
totality). -/
def getItemD (j : Json) (key : String) (default : Json) : Except PyErr Json :=
  match j with
  | .obj fields => Except.ok ((fields.lookup key).getD default)
  | _ => Except.error PyErr.typeError

/-- Value of an extended digit run: `acc * 10 + digit` left fold. -/
def digitsVal (l : List Char) : Nat :=
  l.foldl (fun acc c => acc * 10 + (c.toNat - 48)) 0

/-- An unsigned decimal numeral `digits` or `digits.digits` (exponents,
leading/trailing whitespace, `inf`/`nan` spellings are not modelled). -/
def parseUnsignedDecimal (l : List Char) : Option Rat :=
  if l ≠ [] ∧ l.all Char.isDigit then some (digitsVal l)
  else match l.span Char.isDigit with
    | (ip, '.' :: fp) =>
        if (ip ≠ [] ∨ fp ≠ []) ∧ fp.all Char.isDigit then
          some ((digitsVal ip : Rat) + (digitsVal fp : Rat) / ((10 : Rat) ^ fp.length))
        else none
    | _ => none

/-- A Python decimal literal with an optional sign. -/
def parseDecimal (s : String) : Option Rat :=
  match s.data with
  | '-' :: rest => (parseUnsignedDecimal rest).map (fun q => -q)
  | '+' :: rest => parseUnsignedDecimal rest
  | l => parseUnsignedDecimal l

/-- Python `float(x)` on a decoded JSON value: numbers and bools convert,
numeric strings parse (`ValueError` otherwise), `None`, lists and dicts
raise `TypeError`. -/
def pyFloat (j : Json) : Except PyErr Rat :=
  match j with
  | .num q => Except.ok q
  | .bool b => Except.ok (if b then 1 else 0)
  | .str s => match parseDecimal s with
    | some q => Except.ok q
    | none => Except.error PyErr.valueError
  | .null | .arr _ | .obj _ => Except.error PyErr.typeError

/-- `Sentiment(value)`: enum lookup by value; anything else raises
`ValueError`. -/
def toSentiment (j : Json) : Except PyErr Sentiment :=
  match j with
  | .str "positive" => Except.ok Sentiment.positive
  | .str "neutral" => Except.ok Sentiment.neutral
  | .str "negative" => Except.ok Sentiment.negative
  | _ => Except.error PyErr.valueError

/-- `Urgency(value)`. -/
def toUrgency (j : Json) : Except PyErr Urgency :=
  match j with
  | .str "low" => Except.ok Urgency.low
  | .str "medium" => Except.ok Urgency.medium
  | .str "high" => Except.ok Urgency.high
  | _ => Except.error PyErr.valueError

/-- `Intent(value)`. -/
def toIntent (j : Json) : Except PyErr Intent :=
  match j with
  | .str "churn_risk" => Except.ok Intent.churn_risk
  | .str "upsell_opportunity" => Except.ok Intent.upsell_opportunity
  | .str "support_needed" => Except.ok Intent.support_needed
  | .str "feature_advocacy" => Except.ok Intent.feature_advocacy
  | .str "general_feedback" => Except.ok Intent.general_feedback
  | _ => Except.error PyErr.valueError

/-- The dynamically-typed `Classification` the AI service constructs: the
`topics` and `summary` arguments are stored unvalidated, so they stay
`Json` here. -/
structure PyClassification where
  sentiment : Sentiment
  topics : Json
  urgency : Urgency
  intent : Intent
  summary : Json
  confidence : Rat

/-- The field extraction of `classify_feedback` (keyword arguments evaluate
left to right): `result["sentiment"]` through
`float(result.get("confidence", 0.8))`, propagating the first raised
exception. -/
def parseClassification (j : Json) : Except PyErr PyClassification := do
  let sv ← getItem j "sentiment"
  let sentiment ← toSentiment sv
  let topics ← getItem j "topics"
  let uv ← getItem j "urgency"
  let urgency ← toUrgency uv
  let iv ← getItem j "intent"
  let intent ← toIntent iv
  let summary ← getItem j "summary"
  let cv ← getItemD j "confidence" (Json.num (4 / 5))
  let confidence ← pyFloat cv
  pure { sentiment := sentiment, topics := topics, urgency := urgency,
         intent := intent, summary := summary, confidence := confidence }

/-- The fallback classification built by the `except` clause of
`classify_feedback`. -/
def fallbackClassification : PyClassification :=
  { sentiment := Sentiment.neutral
    topics := Json.arr [Json.str "general_feedback"]
    urgency := Urgency.low
    intent := Intent.general_feedback
    summary := Json.str "Classification failed - manual review needed"
    confidence := 0 }

/-- `AIService.classify_feedback`, from the model response onward (the
Gateway call itself is external).  The argument is the decoded response
text: `Except.error ()` models a `json.JSONDecodeError` from `json.loads`
(a subclass of `ValueError`, hence caught).  Caught parse errors produce
the fallback classification; an uncaught `TypeError` propagates. -/
def classify_feedback (response : Except Unit Json) :
    Except PyErr PyClassification :=
  match response with
  | Except.error _ => Except.ok fallbackClassification
  | Except.ok j => match parseClassification j with
    | Except.ok c => Except.ok c
    | Except.error e =>
        if e.caught then Except.ok fallbackClassification
        else Except.error e

/-! ## query_service.py: get_statistics -/

/-- The aggregate produced by `FeedbackQueryService.get_statistics`;
count dicts are modelled as count functions. -/
structure Statistics where
  total_count : Nat
  by_sentiment : Sentiment → Nat
  by_source : FeedbackSource → Nat
  by_topic : String → Nat
  by_urgency : Urgency → Nat
  by_intent : Intent → Nat
  avg_nps : Option Rat

/-- The query built by `FeedbackQueryService.search` for
`get_statistics(days_back)`: no free text, no filters except
`start_date = now - timedelta(days=days_back)` (omitted when `days_back`
is falsy, i.e. `0`), and `limit=1000`. -/
def statisticsQuery (now : Int) (days_back : Nat) : SearchQuery :=
  { start_date := if days_back = 0 then none else some (now - days_back * 86400)
    limit := 1000 }

/-- `FeedbackQueryService.get_statistics`: one `search` call with
`limit=1000`, then a single pass over the returned page accumulating the
count dicts and the NPS scores.  The incremental dict updates of the
source are modelled extensionally by per-key counts over the page. -/
noncomputable def get_statistics (now : Int) (days_back : Nat) (db : SQLiteDB) :
    Statistics :=
  let all_feedback := search db (statisticsQuery now days_back) none
  let items := all_feedback.items
  let classified := items.filterMap (fun it => it.classification)
  let nps_scores : List Int := items.filterMap (fun it => it.nps_score)
  { total_count := all_feedback.total_count
    by_sentiment := fun s => classified.countP (fun c => c.sentiment == s)
    by_source := fun s => items.countP (fun it => it.source == s)
    by_topic := fun t => ((classified.map (fun c => c.topics)).flatten).count t
    by_urgency := fun u => classified.countP (fun c => c.urgency == u)
    by_intent := fun i => classified.countP (fun c => c.intent == i)
    avg_nps := if nps_scores = [] then none
      else some (((nps_scores.map (fun n : Int => (n : Rat))).sum) / nps_scores.length) }

/-- The five feedback sources (the keys that can appear in `by_source`). -/
def allSources : List FeedbackSource :=
  [FeedbackSource.nps, FeedbackSource.zendesk, FeedbackSource.intercom,
   FeedbackSource.email, FeedbackSource.other]

/-! ## Concrete instances used by counterexamples and witnesses -/

/-- A feedback row with every optional column NULL (used as a base for the
concrete instances below). -/
def emptyRow : FeedbackRow :=
  { id := "", text := "", source := FeedbackSource.other, created_at := 0
    user_id := none, sentiment := none, topics := none, urgency := none
    intent := none, summary := none, confidence := none, nps_score := none
    ticket_id := none, ticket_priority := none, embedding := none }

/-- Item "A": stored embedding `[-1]`, anti-aligned with the query
embedding `[1]`. -/
def c1rowA : FeedbackRow :=
  { emptyRow with id := "A", created_at := 1, embedding := some [-1] }

/-- Item "B": no stored embedding. -/
def c1rowB : FeedbackRow :=
  { emptyRow with id := "B", created_at := 0 }

/-- Two-item store for the ranking counterexample. -/
def c1db : SQLiteDB := { profiles := [], feedback := [c1rowA, c1rowB] }

/-- A free-text query with no filters and default pagination. -/
def c1query : SearchQuery := { query_text := some "q" }

/-- The converted form of `c1rowA` (no profile). -/
def c1fbA : FeedbackItem := row_to_feedback c1rowA none

/-- The converted form of `c1rowB`. -/
def c1fbB : FeedbackItem := row_to_feedback c1rowB none

/-- Item "B2": no stored embedding, newest. -/
def c1rowB2 : FeedbackRow :=
  { emptyRow with id := "B", created_at := 1 }

/-- Item "A2": stored embedding `[1]`, aligned with the query embedding. -/
def c1rowA2 : FeedbackRow :=
  { emptyRow with id := "A", created_at := 0, embedding := some [1] }

/-- Two-item store for the ranking witness. -/
def c1db2 : SQLiteDB := { profiles := [], feedback := [c1rowB2, c1rowA2] }

/-- Converted form of `c1rowB2`. -/
def c1fbB2 : FeedbackItem := row_to_feedback c1rowB2 none

/-- Converted form of `c1rowA2`. -/
def c1fbA2 : FeedbackItem := row_to_feedback c1rowA2 none

/-- A feedback item whose embedding is the (falsy) empty list. -/
def c4item : FeedbackItem :=
  { id := "a", text := "t", source := FeedbackSource.other, created_at := 0
    embedding := some [] }

/-- A fully-populated feedback item for the round-trip witness. -/
def c4good : FeedbackItem :=
  { id := "b", text := "some text", source := FeedbackSource.nps
    created_at := 5
    user_profile := some { user_id := "u1", mrr := some 2000 }
    classification := some
      { sentiment := Sentiment.negative, topics := ["bug", "pricing"]
        urgency := Urgency.high, intent := Intent.churn_risk
        summary := "s", confidence := 9 / 10 }
    embedding := some [1, 2], nps_score := some 2
    ticket_id := some "T-1", ticket_priority := some "high" }

/-- A one-row store for the update-classification witness. -/
def c8db : SQLiteDB :=
  { profiles := []
    feedback := [{ emptyRow with
                   id := "a", embedding := some [3, 4], nps_score := some 7 }] }

/-- A replacement classification for the update-classification witness. -/
def c8class : Classification :=
  { sentiment := Sentiment.positive, topics := ["ux"], urgency := Urgency.low
    intent := Intent.feature_advocacy, summary := "ok", confidence := 1 / 2 }

/-- A COMPLETED job. -/
def c6done : Job :=
  { id := "d", type := "import", status := JobStatus.completed
    created_at := 0, completed_at := some 5 }

/-- A RUNNING job. -/
def c6run : Job :=
  { id := "r", type := "import", status := JobStatus.running
    created_at := 1, started_at := some 2 }

/-- A job table holding one terminal and one running job. -/
def c6mgr : JobManagerState := { jobs := [c6done, c6run], max_jobs := 100 }

/-- A full job table (capacity 1) holding a single PENDING job. -/
def c10mgr : JobManagerState :=
  { jobs := [{ id := "p", type := "import", created_at := 0 }], max_jobs := 1 }

/-- A store with 1001 identical in-window rows — more than the fixed
`limit=1000` page used by `get_statistics`. -/
def c7db : SQLiteDB := { profiles := [], feedback := List.replicate 1001 emptyRow }

/-- A one-row store (with an NPS score) for the statistics witness. -/
def c7db2 : SQLiteDB :=
  { profiles := [], feedback := [{ emptyRow with id := "n", nps_score := some 10 }] }

/-! ## Helper lemmas -/

/-- A sum of squares of rationals is nonnegative. -/
theorem sumSq_nonneg (v : List Rat) : 0 ≤ sumSq v := by
  induction v with
  | nil => simp [sumSq]
  | cons x xs ih =>
      simp only [sumSq, List.map_cons, List.sum_cons]
      have := mul_self_nonneg x
      have h2 : 0 ≤ ((xs.map (fun x => x * x)).sum : Rat) := ih
      linarith

/-- The float denominator of `cosine_similarity` vanishes exactly on
all-zero vectors: a sum of squares is zero iff every entry is zero. -/
theorem sumSq_eq_zero_iff (v : List Rat) :
    sumSq v = 0 ↔ v.all (fun x => x == 0) = true := by
  induction v with
  | nil => simp [sumSq]
  | cons x xs ih =>
      simp only [sumSq, List.map_cons, List.sum_cons, List.all_cons,
        Bool.and_eq_true, beq_iff_eq]
      have hx := mul_self_nonneg x
      have hxs : 0 ≤ sumSq xs := sumSq_nonneg xs
      constructor
      · intro h
        have h0 : x * x + sumSq xs = 0 := h
        have h1 : x * x = 0 := by linarith
        have h2 : sumSq xs = 0 := by linarith
        exact ⟨mul_self_eq_zero.mp h1, ih.mp h2⟩
      · intro ⟨h1, h2⟩
        have := ih.mpr h2
        simp only [sumSq] at this
        simp [h1, this]

/-! ## Claim theorems -/

/-- Claim C9 (confirmed): for every job whose progress has `total = 0`, the
derived percentage is `0` and its computation raises no error, regardless
of `current`. -/
theorem percentage_total_zero (current successful errors : Int) (message : String) :
    percentage { current := current, total := 0, successful := successful,
                 errors := errors, message := message } = Except.ok 0 := rfl

/-- Claim C2, counterexample: on the all-zero vector `[0]` the code
produces NaN (`none`) — no numeric score at all is returned, so no
"sentinel low score" is. -/
theorem cosine_similarity_zero_vector_no_score :
    cosine_similarity [(0 : Rat)] [1] = none
    ∧ ¬ cosine_similarity [(0 : Rat)] [1] = some 0 := by
  have h : cosine_similarity [(0 : Rat)] [1] = none := by
    rw [cosine_similarity, if_pos]
    left
    norm_num [sumSq]
  exact ⟨h, fun hs => by rw [h] at hs; exact Option.noConfusion hs⟩

/-- Claim C2 (amended): `cosine_similarity` computes
`dot(a,b) / (||a|| * ||b||)`; when either input vector is all-zero it does
not crash but returns the float NaN (modelled `none`), not a numeric
sentinel score. -/
theorem cosine_similarity_spec (a b : List Rat) :
    ((a.all (fun x => x == 0) = true ∨ b.all (fun x => x == 0) = true) →
      cosine_similarity a b = none)
    ∧ (¬ a.all (fun x => x == 0) = true → ¬ b.all (fun x => x == 0) = true →
      cosine_similarity a b =
        some ((dotProduct a b : Real) /
          (Real.sqrt ((sumSq a : Rat) : Real) * Real.sqrt ((sumSq b : Rat) : Real)))) := by
  constructor
  · intro h
    rw [cosine_similarity, if_pos]
    rcases h with h | h
    · exact Or.inl ((sumSq_eq_zero_iff a).mpr h)
    · exact Or.inr ((sumSq_eq_zero_iff b).mpr h)
  · intro ha hb
    rw [cosine_similarity, if_neg]
    rintro (h | h)
    · exact ha ((sumSq_eq_zero_iff a).mp h)
    · exact hb ((sumSq_eq_zero_iff b).mp h)

/-- Witness for `cosine_similarity_spec` at a concrete all-zero input. -/
theorem cosine_similarity_spec_witness :
    cosine_similarity [(0 : Rat), 0] [1, 2] = none :=
  (cosine_similarity_spec [0, 0] [1, 2]).1 (Or.inl (by decide))

/-- Claim C5, counterexample: a decoded response that is a JSON array
raises an uncaught `TypeError`, and the caught-failure fallback carries the
summary `"Classification failed - manual review needed"`, not
`"classification failed"`. -/
theorem classify_feedback_not_claim_sentinel :
    classify_feedback (Except.ok (Json.arr [])) = Except.error PyErr.typeError
    ∧ classify_feedback (Except.error ()) = Except.ok fallbackClassification
    ∧ ¬ fallbackClassification.summary = Json.str "classification failed"
    ∧ fallbackClassification.confidence = 0 := by
  refine ⟨rfl, rfl, ?_, rfl⟩
  intro h
  have h2 : "Classification failed - manual review needed" = "classification failed" := by
    injection h
  exact absurd h2 (by decide)

/-- Claim C5 (amended): `classify_feedback` catches JSON-decode failures,
missing keys and invalid field values, returning the sentinel
failed-classification with confidence `0.0` and summary
`"Classification failed - manual review needed"`; the only error that can
propagate to the caller is a `TypeError` (e.g. a decoded response that is
not a JSON object). -/
theorem classify_feedback_failure_spec (response : Except Unit Json) :
    (∀ e, classify_feedback response = Except.error e → e = PyErr.typeError)
    ∧ (response = Except.error () → classify_feedback response = Except.ok fallbackClassification)
    ∧ (∀ j e, response = Except.ok j → parseClassification j = Except.error e →
        ¬ e = PyErr.typeError → classify_feedback response = Except.ok fallbackClassification)
    ∧ fallbackClassification.confidence = 0
    ∧ fallbackClassification.summary
        = Json.str "Classification failed - manual review needed" := by
  refine ⟨?_, ?_, ?_, rfl, rfl⟩
  · intro e he
    cases response with
    | error u => simp [classify_feedback] at he
    | ok j =>
        cases hp : parseClassification j with
        | ok c => simp [classify_feedback, hp] at he
        | error e2 =>
            simp only [classify_feedback, hp] at he
            by_cases hc : e2.caught = true
            · rw [if_pos hc] at he; simp at he
            · rw [if_neg hc] at he
              injection he with h
              subst h
              cases e2 with
              | typeError => rfl
              | keyError => exact absurd rfl hc
              | valueError => exact absurd rfl hc
  · intro h
    subst h
    rfl
  · intro j e hr hp hne
    subst hr
    simp only [classify_feedback, hp]
    rw [if_pos]
    cases e with
    | typeError => exact absurd rfl hne
    | keyError => rfl
    | valueError => rfl

/-- Witness for `classify_feedback_failure_spec`: a decode failure and a
missing-key failure both produce the fallback classification. -/
theorem classify_feedback_failure_spec_witness :
    classify_feedback (Except.error ()) = Except.ok fallbackClassification
    ∧ classify_feedback (Except.ok (Json.obj [])) = Except.ok fallbackClassification :=
  ⟨(classify_feedback_failure_spec (Except.error ())).2.1 rfl,
   (classify_feedback_failure_spec (Except.ok (Json.obj []))).2.2.1
     (Json.obj []) PyErr.keyError rfl rfl (by decide)⟩

/-- Updating every job that carries a given id (the single dict entry)
moves `find?` from the old value to the updated one, provided the update
preserves the id. -/
theorem find?_map_set (l : List Job) (jid : String) (j : Job) (upd : Job → Job)
    (hid : ∀ x, (upd x).id = x.id)
    (h : l.find? (fun x => x.id == jid) = some j) :
    (l.map (fun x => if x.id = jid then upd x else x)).find? (fun x => x.id == jid)
      = some (upd j) := by
  induction l with
  | nil => simp at h
  | cons a l ih =>
      by_cases ha : a.id = jid
      · rw [List.find?_cons_of_pos _ (by simp [ha])] at h
        injection h with h
        subst h
        simp only [List.map_cons, if_pos ha]
        rw [List.find?_cons_of_pos _ (by simp [hid, ha])]
      · rw [List.find?_cons_of_neg _ (by simp [ha])] at h
        simp only [List.map_cons, if_neg ha]
        rw [List.find?_cons_of_neg _ (by simp [ha])]
        exact ih h

/-- Claim C6 (confirmed): cancelling a job in a terminal state returns
failure and leaves the whole state unchanged; cancelling a PENDING or
RUNNING job returns success, moves it to CANCELLED and sets its completion
timestamp. -/
theorem cancel_job_spec (now : Int) (jid : String) (m : JobManagerState) (j : Job)
    (hfind : m.jobs.find? (fun x => x.id == jid) = some j) :
    (j.status.isTerminal = true → cancel_job now jid m = (false, m))
    ∧ ((j.status = JobStatus.pending ∨ j.status = JobStatus.running) →
        (cancel_job now jid m).1 = true
        ∧ (cancel_job now jid m).2.jobs.find? (fun x => x.id == jid)
            = some { j with status := JobStatus.cancelled, completed_at := some now }) := by
  constructor
  · intro ht
    have hnot : ¬ (j.status = JobStatus.pending ∨ j.status = JobStatus.running) := by
      cases hs : j.status <;> simp_all [JobStatus.isTerminal]
    simp only [cancel_job, hfind, if_neg hnot]
  · intro hpr
    constructor
    · simp only [cancel_job, hfind, if_pos hpr]
    · simp only [cancel_job, hfind, if_pos hpr]
      exact find?_map_set m.jobs jid j _ (fun x => rfl) hfind

/-- Witness for `cancel_job_spec`: cancelling the COMPLETED job `"d"`
fails and changes nothing; cancelling the RUNNING job `"r"` succeeds and
stamps it CANCELLED. -/
theorem cancel_job_spec_witness :
    cancel_job 9 "d" c6mgr = (false, c6mgr)
    ∧ (cancel_job 9 "r" c6mgr).1 = true
    ∧ (cancel_job 9 "r" c6mgr).2.jobs.find? (fun x => x.id == "r")
        = some { c6run with status := JobStatus.cancelled, completed_at := some 9 } :=
  ⟨(cancel_job_spec 9 "d" c6mgr c6done rfl).1 rfl,
   ((cancel_job_spec 9 "r" c6mgr c6run rfl).2 (Or.inr rfl)).1,
   ((cancel_job_spec 9 "r" c6mgr c6run rfl).2 (Or.inr rfl)).2⟩

/-- Claim C8 (confirmed): `update_classification` overwrites exactly the
six classification columns of the rows carrying the given id, leaving the
embedding and every other column of every row — and the profile table —
unchanged. -/
theorem update_classification_frame (db : SQLiteDB) (fid : String)
    (c : Classification) (i : Nat) (hi : i < db.feedback.length) :
    ∃ hi2 : i < (update_classification fid c db).feedback.length,
      ((update_classification fid c db).feedback.get ⟨i, hi2⟩).embedding
          = (db.feedback.get ⟨i, hi⟩).embedding
      ∧ ((update_classification fid c db).feedback.get ⟨i, hi2⟩).id
          = (db.feedback.get ⟨i, hi⟩).id
      ∧ ((update_classification fid c db).feedback.get ⟨i, hi2⟩).text
          = (db.feedback.get ⟨i, hi⟩).text
      ∧ ((update_classification fid c db).feedback.get ⟨i, hi2⟩).source
          = (db.feedback.get ⟨i, hi⟩).source
      ∧ ((update_classification fid c db).feedback.get ⟨i, hi2⟩).created_at
          = (db.feedback.get ⟨i, hi⟩).created_at
      ∧ ((update_classification fid c db).feedback.get ⟨i, hi2⟩).user_id
          = (db.feedback.get ⟨i, hi⟩).user_id
      ∧ ((update_classification fid c db).feedback.get ⟨i, hi2⟩).nps_score
          = (db.feedback.get ⟨i, hi⟩).nps_score
      ∧ ((update_classification fid c db).feedback.get ⟨i, hi2⟩).ticket_id
          = (db.feedback.get ⟨i, hi⟩).ticket_id
      ∧ ((update_classification fid c db).feedback.get ⟨i, hi2⟩).ticket_priority
          = (db.feedback.get ⟨i, hi⟩).ticket_priority
      ∧ ((db.feedback.get ⟨i, hi⟩).id = fid →
          (update_classification fid c db).feedback.get ⟨i, hi2⟩
            = { db.feedback.get ⟨i, hi⟩ with
                sentiment := some c.sentiment, topics := some c.topics
                urgency := some c.urgency, intent := some c.intent
                summary := some c.summary, confidence := some c.confidence })
      ∧ (¬ (db.feedback.get ⟨i, hi⟩).id = fid →
          (update_classification fid c db).feedback.get ⟨i, hi2⟩
            = db.feedback.get ⟨i, hi⟩)
      ∧ (update_classification fid c db).profiles = db.profiles := by
  have hlen : (update_classification fid c db).feedback.length = db.feedback.length := by
    simp [update_classification]
  refine ⟨by omega, ?_⟩
  have hg : (update_classification fid c db).feedback.get ⟨i, by omega⟩
      = (fun r => if r.id = fid then
          { r with sentiment := some c.sentiment, topics := some c.topics
                   urgency := some c.urgency, intent := some c.intent
                   summary := some c.summary, confidence := some c.confidence }
        else r) (db.feedback.get ⟨i, hi⟩) := by
    simp [update_classification, List.get_eq_getElem, List.getElem_map]
  rw [hg]
  dsimp only
  by_cases h : (db.feedback.get ⟨i, hi⟩).id = fid
  · rw [if_pos h]
    exact ⟨rfl, rfl, rfl, rfl, rfl, rfl, rfl, rfl, rfl, fun _ => rfl,
      fun hn => absurd h hn, by simp [update_classification]⟩
  · rw [if_neg h]
    exact ⟨rfl, rfl, rfl, rfl, rfl, rfl, rfl, rfl, rfl, fun hp => absurd hp h,
      fun _ => rfl, by simp [update_classification]⟩

/-- Witness for `update_classification_frame` on the one-row store. -/
theorem update_classification_frame_witness :
    ∃ hi2 : 0 < (update_classification "a" c8class c8db).feedback.length,
      ((update_classification "a" c8class c8db).feedback.get ⟨0, hi2⟩).embedding
        = (c8db.feedback.get ⟨0, by decide⟩).embedding :=
  ⟨(update_classification_frame c8db "a" c8class 0 (by decide)).1,
   ((update_classification_frame c8db "a" c8class 0 (by decide)).2).1⟩

/-- The job-table cleanup only ever deletes jobs in a terminal status:
under distinct ids, every PENDING or RUNNING job survives
`_cleanup_old_jobs`. -/
theorem mem_cleanup_of_not_terminal (jobs : List Job)
    (hnd : (jobs.map (fun x => x.id)).Nodup)
    (j : Job) (hj : j ∈ jobs) (hterm : j.status.isTerminal = false) :
    j ∈ cleanup_old_jobs jobs := by
  unfold cleanup_old_jobs
  refine List.mem_filter.mpr ⟨hj, ?_⟩
  simp only [Bool.not_eq_eq_eq_not, Bool.not_true]
  by_contra hcon
  have hmem : j.id ∈ ((((jobs.filter (fun x => x.status.isTerminal)).insertionSort
      (fun a b => (a.completed_at.getD a.created_at) ≤ (b.completed_at.getD b.created_at))).take
        ((jobs.filter (fun x => x.status.isTerminal)).length / 2)).map (fun x => x.id)) := by
    have : ¬ (List.contains _ j.id = false) := hcon
    simp only [List.contains_eq_any_beq, List.any_eq_false, not_forall] at this
    obtain ⟨x, hx, hbe⟩ := this
    simp only [Decidable.not_not, beq_iff_eq] at hbe
    exact hbe ▸ hx
  obtain ⟨k, hk, hkid⟩ := List.mem_map.mp hmem
  have hk2 : k ∈ jobs.filter (fun x => x.status.isTerminal) :=
    (List.mem_insertionSort _).mp (List.mem_of_mem_take hk)
  have hk3 := List.mem_filter.mp hk2
  have : k = j := List.inj_on_of_nodup_map hnd hk3.1 hj hkid
  rw [this] at hk3
  rw [hterm] at hk3
  exact Bool.noConfusion hk3.2

/-- Replacing every job carrying the key with the new value (the dict
entry) makes `find?` return the new value, when the key is present. -/
theorem find?_set_of_any (l : List Job) (job : Job)
    (h : l.any (fun j => j.id == job.id) = true) :
    (l.map (fun x => if x.id = job.id then job else x)).find? (fun x => x.id == job.id)
      = some job := by
  induction l with
  | nil => simp at h
  | cons a l ih =>
      by_cases ha : a.id = job.id
      · simp only [List.map_cons, if_pos ha]
        rw [List.find?_cons_of_pos _ (by simp)]
      · simp only [List.map_cons, if_neg ha]
        rw [List.find?_cons_of_neg _ (by simp [ha])]
        apply ih
        simpa [List.any_cons, ha] using h

/-- `self.jobs[job_id] = job` always leaves the job reachable under its
id. -/
theorem find?_dictSet (jobs : List Job) (job : Job) :
    (dictSet jobs job).find? (fun x => x.id == job.id) = some job := by
  unfold dictSet
  by_cases h : jobs.any (fun j => j.id == job.id) = true
  · rw [if_pos h]
    exact find?_set_of_any jobs job h
  · rw [if_neg h]
    rw [List.find?_append]
    have h1 : jobs.find? (fun x => x.id == job.id) = none := by
      rw [List.find?_eq_none]
      intro x hx hbe
      exact h (List.any_eq_true.mpr ⟨x, hx, hbe⟩)
    rw [h1]
    simp [List.find?_cons_of_pos]

/-- Claim C10 (confirmed): the cleanup run by `create_job` removes only
COMPLETED/FAILED/CANCELLED jobs — a PENDING or RUNNING job is never
evicted — `create_job` always inserts the new job afterwards, and when
fewer than two jobs are terminal a full table grows past `max_jobs`. -/
theorem create_job_cleanup_spec (m : JobManagerState) (now : Int) (fresh jt : String) :
    (∀ j ∈ m.jobs, (m.jobs.map (fun x => x.id)).Nodup → j.status.isTerminal = false →
        j ∈ cleanup_old_jobs m.jobs)
    ∧ ((create_job now fresh jt m).2.jobs.find? (fun x => x.id == fresh)
        = some (create_job now fresh jt m).1)
    ∧ ((m.jobs.filter (fun j => j.status.isTerminal)).length < 2 →
        m.max_jobs ≤ m.jobs.length →
        (∀ j ∈ m.jobs, ¬ j.id = fresh) →
        (create_job now fresh jt m).2.jobs.length = m.jobs.length + 1
        ∧ m.max_jobs < (create_job now fresh jt m).2.jobs.length) := by
  refine ⟨fun j hj hnd ht => mem_cleanup_of_not_terminal m.jobs hnd j hj ht, ?_, ?_⟩
  · exact find?_dictSet (if m.max_jobs ≤ m.jobs.length then cleanup_old_jobs m.jobs else m.jobs)
      { id := fresh, type := jt, created_at := now }
  · intro hterm hlen hfree
    have hcl : cleanup_old_jobs m.jobs = m.jobs := by
      simp only [cleanup_old_jobs]
      rw [Nat.div_eq_of_lt hterm]
      simp only [List.take_zero, List.map_nil]
      refine List.filter_eq_self.mpr (fun a _ => ?_)
      rfl
    have hany : m.jobs.any (fun j => j.id == fresh) = false := by
      rw [List.any_eq_false]
      intro x hx
      simp [hfree x hx]
    have hjobs : (create_job now fresh jt m).2.jobs = m.jobs ++ [(create_job now fresh jt m).1] := by
      simp only [create_job, dictSet, if_pos hlen, hcl, hany]
      rw [if_neg]
      simp
    constructor
    · rw [hjobs]; simp
    · rw [hjobs]; simp; omega

/-- Witness for `create_job_cleanup_spec` on a full one-slot table holding
a PENDING job: the table grows to two jobs, past `max_jobs = 1`. -/
theorem create_job_cleanup_spec_witness :
    (create_job 3 "q" "import" c10mgr).2.jobs.length = c10mgr.jobs.length + 1
    ∧ c10mgr.max_jobs < (create_job 3 "q" "import" c10mgr).2.jobs.length :=
  (create_job_cleanup_spec c10mgr 3 "q" "import").2.2 (by decide) (by decide)
    (by decide)

/-- Claim C4, counterexample: an item inserted with the empty-list
embedding (falsy in Python, hence stored as NULL) is read back with no
embedding at all, so not every field round-trips. -/
theorem insert_get_empty_embedding_lost :
    c4item.embedding = some []
    ∧ (get_feedback (insert_feedback "u" c4item { profiles := [], feedback := [] }).1
        (insert_feedback "u" c4item { profiles := [], feedback := [] }).2).map
          (fun g => g.embedding) = some none
    ∧ ¬ some (some ([] : List Rat)) = (some none : Option (Option (List Rat))) := by
  refine ⟨rfl, rfl, by simp⟩

/-- Claim C4 (amended): inserting an item whose embedding is not the
(falsy) empty list under an unused id and reading it back yields an item
equal in id, text, source, created_at, classification, embedding,
nps_score, ticket_id and ticket_priority. -/
theorem insert_get_roundtrip (fresh : String) (f : FeedbackItem) (db : SQLiteDB)
    (hemb : ¬ f.embedding = some [])
    (hfresh : ∀ r ∈ db.feedback, ¬ r.id = (insert_feedback fresh f db).1) :
    ∃ g, get_feedback (insert_feedback fresh f db).1 (insert_feedback fresh f db).2 = some g
      ∧ g.id = (insert_feedback fresh f db).1
      ∧ g.text = f.text ∧ g.source = f.source ∧ g.created_at = f.created_at
      ∧ g.classification = f.classification ∧ g.embedding = f.embedding
      ∧ g.nps_score = f.nps_score ∧ g.ticket_id = f.ticket_id
      ∧ g.ticket_priority = f.ticket_priority := by
  have hfeed : (insert_feedback fresh f db).2.feedback
      = db.feedback ++ [insertedRow fresh f] := by
    simp only [insert_feedback]
    cases f.user_profile <;> rfl
  have hid : (insertedRow fresh f).id = (insert_feedback fresh f db).1 := rfl
  have hfind : (insert_feedback fresh f db).2.feedback.find?
      (fun r => r.id == (insert_feedback fresh f db).1) = some (insertedRow fresh f) := by
    rw [hfeed, List.find?_append]
    have h1 : db.feedback.find? (fun r => r.id == (insert_feedback fresh f db).1) = none := by
      rw [List.find?_eq_none]
      intro x hx hbe
      exact hfresh x hx (by simpa using hbe)
    rw [h1]
    rw [List.find?_cons_of_pos _ (by simp [hid])]
    rfl
  refine ⟨row_to_feedback (insertedRow fresh f)
      (fetch_profile (insert_feedback fresh f db).2 (insertedRow fresh f).user_id),
    ?_, ?_, rfl, rfl, rfl, ?_, ?_, rfl, rfl, rfl⟩
  · simp only [get_feedback, hfind]
    rfl
  · exact hid
  · cases hcl : f.classification with
    | none => simp [row_to_feedback, insertedRow, hcl]
    | some c =>
        cases c
        simp [row_to_feedback, insertedRow, hcl]
  · cases hem : f.embedding with
    | none => simp [row_to_feedback, insertedRow, hem]
    | some l =>
        cases l with
        | nil => exact absurd hem hemb
        | cons x xs => simp [row_to_feedback, insertedRow, hem]

/-- Witness for `insert_get_roundtrip` on a fully-populated item. -/
theorem insert_get_roundtrip_witness :
    ∃ g, get_feedback (insert_feedback "u" c4good { profiles := [], feedback := [] }).1
        (insert_feedback "u" c4good { profiles := [], feedback := [] }).2 = some g
      ∧ g.id = (insert_feedback "u" c4good { profiles := [], feedback := [] }).1
      ∧ g.text = c4good.text ∧ g.source = c4good.source
      ∧ g.created_at = c4good.created_at
      ∧ g.classification = c4good.classification ∧ g.embedding = c4good.embedding
      ∧ g.nps_score = c4good.nps_score ∧ g.ticket_id = c4good.ticket_id
      ∧ g.ticket_priority = c4good.ticket_priority :=
  insert_get_roundtrip "u" c4good { profiles := [], feedback := [] }
    (by simp [c4good]) (by simp)

/-- The semantic rerank is a permutation, so it preserves length. -/
theorem rerank_length (qe : List Rat) (items : List FeedbackItem) :
    (rerank qe items).length = items.length := by
  simp [rerank, List.length_insertionSort]

/-- The pre-rerank item list has one item per filtered row. -/
theorem baseItems_length (db : SQLiteDB) (q : SearchQuery) :
    (baseItems db q).length = (filteredRows db q).length := by
  simp [baseItems, List.length_insertionSort]

/-- The ranked list has one item per filtered row, rerank or not. -/
theorem rankedItems_length (db : SQLiteDB) (q : SearchQuery)
    (qe : Option (List Rat)) :
    (rankedItems db q qe).length = (filteredRows db q).length := by
  unfold rankedItems
  split
  · split
    · exact baseItems_length db q
    · rw [rerank_length, baseItems_length]
  · exact baseItems_length db q

/-- Claim C3 (confirmed): `total_count` equals the number of stored rows
satisfying the filter conjunction, whatever `limit` and `offset` are, and
the returned page is the corresponding slice of the full ranked list
(pagination happens after ranking). -/
theorem search_total_count_pagination (db : SQLiteDB) (q : SearchQuery)
    (qe : Option (List Rat)) (l o : Nat) :
    (search db { q with limit := l, offset := o } qe).total_count
      = db.feedback.countP (matchesQuery db q)
    ∧ (search db { q with limit := l, offset := o } qe).items
      = (((search db { q with limit := db.feedback.length, offset := 0 } qe).items).drop o).take l := by
  have hm : matchesQuery db { q with limit := l, offset := o } = matchesQuery db q := rfl
  have hr : rankedItems db { q with limit := l, offset := o } qe
      = rankedItems db q qe := rfl
  have hr2 : rankedItems db { q with limit := db.feedback.length, offset := 0 } qe
      = rankedItems db q qe := rfl
  have hlen : (rankedItems db q qe).length ≤ db.feedback.length := by
    rw [rankedItems_length]
    exact List.length_filter_le _ _
  constructor
  · simp only [search, filteredRows, hm]
    exact (List.countP_eq_length_filter _ _).symm
  · simp only [search, hr, hr2, List.drop_zero]
    rw [List.take_of_length_le hlen]

/-- The reranked list is sorted by descending score, where each item's
score is recomputed by `itemScore`. -/
theorem rerank_pairwise (qe : List Rat) (items : List FeedbackItem) :
    List.Pairwise
      (fun a b => scoreVal (itemScore qe b) ≤ scoreVal (itemScore qe a))
      (rerank qe items) := by
  have hs : List.Sorted scoreLE
      ((items.map (fun it => (it, itemScore qe it))).insertionSort scoreLE) :=
    List.sorted_insertionSort scoreLE _
  have hmem : ∀ p ∈ (items.map (fun it => (it, itemScore qe it))).insertionSort scoreLE,
      p.2 = itemScore qe p.1 := by
    intro p hp
    have hp2 := (List.mem_insertionSort scoreLE).mp hp
    obtain ⟨it, _, heq⟩ := List.mem_map.mp hp2
    rw [← heq]
  have hs2 : List.Pairwise
      (fun a b : FeedbackItem × Option Real =>
        scoreVal (itemScore qe b.1) ≤ scoreVal (itemScore qe a.1))
      ((items.map (fun it => (it, itemScore qe it))).insertionSort scoreLE) := by
    refine List.Pairwise.imp_of_mem ?_ hs
    intro a b ha hb hab
    have h1 := hmem a ha
    have h2 := hmem b hb
    rw [← h1, ← h2]
    exact hab
  exact List.pairwise_map.mpr hs2

/-- Claim C1 (amended): in a free-text search with a supplied query
embedding, provided no candidate item's similarity score is NaN (Python's
sort has no consistent order on NaN keys, so an all-zero stored embedding
anywhere in the filtered set would leave the ranking unspecified), an item
lacking a stored embedding is scored 0 and ranks after every item whose
similarity score is positive (absent ties); an item with a
negatively-scored embedding, however, ranks after it. -/
theorem search_no_embedding_ranks_after_positive
    (db : SQLiteDB) (q : SearchQuery) (x : Rat) (xs : List Rat) (qt : String)
    (hqt : q.query_text = some qt) (hqt2 : ¬ qt = "")
    (hnan : ∀ it ∈ baseItems db q, ¬ itemScore (x :: xs) it = none)
    (i j : Nat)
    (hi : i < (search db q (some (x :: xs))).items.length)
    (hj : j < (search db q (some (x :: xs))).items.length)
    (hnone : ((search db q (some (x :: xs))).items.get ⟨i, hi⟩).embedding = none)
    (hpos : ∃ s : Real,
        itemScore (x :: xs) ((search db q (some (x :: xs))).items.get ⟨j, hj⟩) = some s
        ∧ 0 < s) :
    j < i := by
  obtain ⟨s, hps, hspos⟩ := hpos
  have hitems : (search db q (some (x :: xs))).items
      = ((rerank (x :: xs) (baseItems db q)).drop q.offset).take q.limit := by
    simp only [search, rankedItems, hqt]
    rw [if_neg hqt2]
  have hsub : (search db q (some (x :: xs))).items.Sublist
      (rerank (x :: xs) (baseItems db q)) := by
    rw [hitems]
    exact (List.take_sublist _ _).trans (List.drop_sublist _ _)
  have hpw : List.Pairwise
      (fun a b => scoreVal (itemScore (x :: xs) b) ≤ scoreVal (itemScore (x :: xs) a))
      ((search db q (some (x :: xs))).items) :=
    List.Pairwise.sublist hsub (rerank_pairwise _ _)
  have hzero : itemScore (x :: xs) ((search db q (some (x :: xs))).items.get ⟨i, hi⟩)
      = some 0 := by
    have hn := hnone
    rw [List.get_eq_getElem] at hn
    simp [itemScore, hn]
  by_contra hcon
  push_neg at hcon
  rcases Nat.lt_or_ge i j with hij | hij
  · have hrel := List.pairwise_iff_get.mp hpw ⟨i, hi⟩ ⟨j, hj⟩ hij
    rw [hps, hzero] at hrel
    simp only [scoreVal, Option.getD_some] at hrel
    linarith
  · have hij2 : i = j := by omega
    subst hij2
    rw [hps] at hzero
    injection hzero with h0
    rw [h0] at hspos
    exact lt_irrefl 0 hspos

/-- Cosine similarity of the 1-dimensional vectors `[1]` and `[-1]` is
exactly `-1`. -/
theorem cosine_one_negone : cosine_similarity [1] [-1] = some (-1) := by
  have h1 : sumSq [(1 : Rat)] = 1 := by norm_num [sumSq]
  have h2 : sumSq [(-1 : Rat)] = 1 := by norm_num [sumSq]
  have h3 : dotProduct [(1 : Rat)] [(-1 : Rat)] = -1 := by norm_num [dotProduct]
  rw [cosine_similarity, if_neg]
  · rw [h1, h2, h3]
    norm_num [Real.sqrt_one]
  · rw [h1, h2]
    norm_num

/-- Cosine similarity of `[1]` and `[1]` is exactly `1`. -/
theorem cosine_one_one : cosine_similarity [1] [1] = some 1 := by
  have h1 : sumSq [(1 : Rat)] = 1 := by norm_num [sumSq]
  have h3 : dotProduct [(1 : Rat)] [(1 : Rat)] = 1 := by norm_num [dotProduct]
  rw [cosine_similarity, if_neg]
  · rw [h1, h3]
    norm_num [Real.sqrt_one]
  · rw [h1]
    norm_num

/-- Evaluation of the counterexample search: the reranked pre-pagination
list puts the no-embedding item "B" (score 0) before the anti-aligned
item "A" (score -1). -/
theorem c1_search_items_eval :
    (search c1db c1query (some [1])).items = [c1fbB, c1fbA] := by
  have hscoreA : itemScore [1] c1fbA = some (-1) := cosine_one_negone
  have hscoreB : itemScore [1] c1fbB = some 0 := rfl
  have hbase : baseItems c1db c1query = [c1fbA, c1fbB] := rfl
  have hrank : rankedItems c1db c1query (some [1])
      = rerank [1] (baseItems c1db c1query) := by
    show (if ("q" : String) = "" then baseItems c1db c1query
          else rerank [1] (baseItems c1db c1query)) = rerank [1] (baseItems c1db c1query)
    rw [if_neg (by decide)]
  have hns : ¬ scoreLE (c1fbA, itemScore [1] c1fbA) (c1fbB, itemScore [1] c1fbB) := by
    simp only [scoreLE, hscoreA, hscoreB, scoreVal, Option.getD_some]
    norm_num
  have hsort : rerank [1] [c1fbA, c1fbB] = [c1fbB, c1fbA] := by
    unfold rerank
    simp only [List.map_cons, List.map_nil]
    simp [List.insertionSort, List.orderedInsert, hns]
  show ((rankedItems c1db c1query (some [1])).drop c1query.offset).take c1query.limit
      = [c1fbB, c1fbA]
  rw [hrank, hbase, hsort]
  rfl

/-- Claim C1, counterexample: with query embedding `[1]`, the item with the
nonzero stored embedding `[-1]` has similarity `-1 < 0` and is ranked
*after* the item with no embedding (scored 0) — no tie is involved. -/
theorem search_no_embedding_ranks_first_counterexample :
    ((search c1db c1query (some [1])).items.map (fun it => (it.id, it.embedding)))
      = [("B", none), ("A", some [-1])]
    ∧ cosine_similarity [1] [-1] = some (-1)
    ∧ itemScore [1] c1fbB = some 0
    ∧ ¬ ((-1 : Real) = 0)
    ∧ ¬ ([(-1 : Rat)].all (fun v => v == 0) = true) := by
  refine ⟨?_, cosine_one_negone, rfl, by norm_num, by decide⟩
  rw [c1_search_items_eval]
  rfl

/-- Evaluation of the witness search: the positively-scored item "A" (with
embedding `[1]`, similarity 1) is ranked before the no-embedding item
"B". -/
theorem c1_search_items_eval2 :
    (search c1db2 c1query (some [1])).items = [c1fbA2, c1fbB2] := by
  have hscoreA : itemScore [1] c1fbA2 = some 1 := cosine_one_one
  have hscoreB : itemScore [1] c1fbB2 = some 0 := rfl
  have hbase : baseItems c1db2 c1query = [c1fbB2, c1fbA2] := rfl
  have hrank : rankedItems c1db2 c1query (some [1])
      = rerank [1] (baseItems c1db2 c1query) := by
    show (if ("q" : String) = "" then baseItems c1db2 c1query
          else rerank [1] (baseItems c1db2 c1query)) = rerank [1] (baseItems c1db2 c1query)
    rw [if_neg (by decide)]
  have hns : ¬ scoreLE (c1fbB2, itemScore [1] c1fbB2) (c1fbA2, itemScore [1] c1fbA2) := by
    simp only [scoreLE, hscoreA, hscoreB, scoreVal, Option.getD_some]
    norm_num
  have hsort : rerank [1] [c1fbB2, c1fbA2] = [c1fbA2, c1fbB2] := by
    unfold rerank
    simp only [List.map_cons, List.map_nil]
    simp [List.insertionSort, List.orderedInsert, hns]
  show ((rankedItems c1db2 c1query (some [1])).drop c1query.offset).take c1query.limit
      = [c1fbA2, c1fbB2]
  rw [hrank, hbase, hsort]
  rfl

/-- Witness for `search_no_embedding_ranks_after_positive`: in the witness
search the positively-scored item "A" precedes the no-embedding item "B". -/
theorem search_no_embedding_ranks_after_positive_witness :
    ((search c1db2 c1query (some [1])).items.map (fun it => it.id)) = ["A", "B"]
    ∧ (0 : Nat) < 1 := by
  constructor
  · rw [c1_search_items_eval2]
    rfl
  · refine search_no_embedding_ranks_after_positive c1db2 c1query 1 [] "q" rfl
      (by decide) ?hnan 1 0 ?hi ?hj ?hnone ?hpos
    case hnan =>
      have hbase : baseItems c1db2 c1query = [c1fbB2, c1fbA2] := rfl
      intro it hit
      rw [hbase] at hit
      simp only [List.mem_cons, List.not_mem_nil, or_false] at hit
      rcases hit with h | h
      · subst h
        intro hcon
        rw [show itemScore [1] c1fbB2 = some 0 from rfl] at hcon
        exact Option.noConfusion hcon
      · subst h
        intro hcon
        rw [show itemScore [1] c1fbA2 = some 1 from cosine_one_one] at hcon
        exact Option.noConfusion hcon
    case hi => rw [c1_search_items_eval2]; decide
    case hj => rw [c1_search_items_eval2]; decide
    case hnone => simp [c1_search_items_eval2]; rfl
    case hpos =>
      refine ⟨1, ?_, by norm_num⟩
      have hg : (search c1db2 c1query (some [1])).items.get
          ⟨0, by rw [c1_search_items_eval2]; decide⟩ = c1fbA2 := by
        simp [c1_search_items_eval2]
      rw [hg]
      exact cosine_one_one

/-- Every item has exactly one source, so the per-source counts of a page
sum to the page length. -/
theorem sum_by_source (l : List FeedbackItem) :
    (allSources.map (fun s => l.countP (fun it => it.source == s))).sum = l.length := by
  simp only [allSources, List.map_cons, List.map_nil, List.sum_cons, List.sum_nil, add_zero]
  induction l with
  | nil => simp
  | cons a l ih =>
      simp only [List.countP_cons, List.length_cons]
      cases ha : a.source <;> simp [ha] <;> omega

/-- Claim C7 (amended): the counts of `get_statistics` are taken over the
first `min(total_count, 1000)` ranked items — the fixed `limit=1000` page —
not the entire window: the per-source counts sum to
`min(total_count, 1000)`, and whenever the window holds at most 1000 items
they sum to `total_count` and `avg_nps` is the mean NPS over the in-window
items that have one. -/
theorem get_statistics_spec (now : Int) (days_back : Nat) (db : SQLiteDB) :
    (get_statistics now days_back db).total_count
        = (filteredRows db (statisticsQuery now days_back)).length
    ∧ (allSources.map (get_statistics now days_back db).by_source).sum
        = min (get_statistics now days_back db).total_count 1000
    ∧ ((get_statistics now days_back db).total_count ≤ 1000 →
        (allSources.map (get_statistics now days_back db).by_source).sum
            = (get_statistics now days_back db).total_count
        ∧ (get_statistics now days_back db).avg_nps
            = (if ((filteredRows db (statisticsQuery now days_back)).filterMap
                    (fun r => r.nps_score)) = [] then none
               else some (((((filteredRows db (statisticsQuery now days_back)).filterMap
                      (fun r => r.nps_score)).map (fun n : Int => (n : Rat))).sum)
                  / ((filteredRows db (statisticsQuery now days_back)).filterMap
                      (fun r => r.nps_score)).length))) := by
  have hitems : (search db (statisticsQuery now days_back) none).items
      = (baseItems db (statisticsQuery now days_back)).take 1000 := rfl
  have hsums : (allSources.map (get_statistics now days_back db).by_source).sum
      = (search db (statisticsQuery now days_back) none).items.length := by
    exact sum_by_source _
  refine ⟨rfl, ?_, ?_⟩
  · rw [hsums, hitems, List.length_take, baseItems_length]
    show min 1000 (filteredRows db (statisticsQuery now days_back)).length
        = min (filteredRows db (statisticsQuery now days_back)).length 1000
    omega
  · intro hle
    have hle2 : (baseItems db (statisticsQuery now days_back)).length ≤ 1000 := by
      rw [baseItems_length]
      exact hle
    have hfull : (search db (statisticsQuery now days_back) none).items
        = baseItems db (statisticsQuery now days_back) := by
      rw [hitems]
      exact List.take_of_length_le hle2
    constructor
    · rw [hsums, hfull, baseItems_length]
      rfl
    · have hnps : (search db (statisticsQuery now days_back) none).items.filterMap
          (fun it => it.nps_score)
          = ((filteredRows db (statisticsQuery now days_back)).insertionSort
              createdDescLE).filterMap (fun r => r.nps_score) := by
        rw [hfull]
        show (((filteredRows db (statisticsQuery now days_back)).insertionSort
            createdDescLE).map (fun r => row_to_feedback r (fetch_profile db r.user_id))).filterMap
            (fun it => it.nps_score) = _
        rw [List.filterMap_map]
        rfl
      have hperm : List.Perm
          (((filteredRows db (statisticsQuery now days_back)).insertionSort
            createdDescLE).filterMap (fun r => r.nps_score))
          ((filteredRows db (statisticsQuery now days_back)).filterMap
            (fun r => r.nps_score)) :=
        (List.perm_insertionSort createdDescLE _).filterMap _
      show (if (search db (statisticsQuery now days_back) none).items.filterMap
            (fun it => it.nps_score) = [] then none
          else some (((((search db (statisticsQuery now days_back) none).items.filterMap
              (fun it => it.nps_score)).map (fun n : Int => (n : Rat))).sum)
            / ((search db (statisticsQuery now days_back) none).items.filterMap
              (fun it => it.nps_score)).length)) = _
      rw [hnps]
      by_cases hw : (filteredRows db (statisticsQuery now days_back)).filterMap
          (fun r => r.nps_score) = []
      · rw [if_pos hw, if_pos]
        exact List.Perm.eq_nil (hw ▸ hperm)
      · rw [if_neg hw, if_neg]
        · rw [(hperm.map _).sum_eq, hperm.length_eq]
        · intro hcon
          exact hw (List.Perm.eq_nil (hcon ▸ hperm).symm)

/-- The statistics search returns the first 1000 base items (no free text,
so no rerank; offset 0). -/
theorem statistics_search_items (now : Int) (days_back : Nat) (db : SQLiteDB) :
    (search db (statisticsQuery now days_back) none).items
      = (baseItems db (statisticsQuery now days_back)).take 1000 := rfl

/-- The `by_source` counts of `get_statistics` are counts over the
returned page. -/
theorem statistics_by_source (now : Int) (days_back : Nat) (db : SQLiteDB) :
    (get_statistics now days_back db).by_source
      = fun s => (search db (statisticsQuery now days_back) none).items.countP
          (fun it => it.source == s) := rfl

/-- `total_count` of `get_statistics` is the filtered-window size. -/
theorem statistics_total_count (now : Int) (days_back : Nat) (db : SQLiteDB) :
    (get_statistics now days_back db).total_count
      = (filteredRows db (statisticsQuery now days_back)).length := rfl

/-- Claim C7, counterexample: with 1001 in-window items the per-source
counts of `get_statistics` sum to 1000 (the fixed page size), not to
`total_count = 1001`. -/
theorem get_statistics_truncation :
    (get_statistics 0 30 c7db).total_count = 1001
    ∧ (allSources.map (get_statistics 0 30 c7db).by_source).sum = 1000
    ∧ ¬ ((allSources.map (get_statistics 0 30 c7db).by_source).sum
          = (get_statistics 0 30 c7db).total_count) := by
  have h1 : filteredRows c7db (statisticsQuery 0 30) = List.replicate 1001 emptyRow := by
    show (List.replicate 1001 emptyRow).filter (matchesQuery c7db (statisticsQuery 0 30)) = _
    rw [List.filter_replicate, if_pos]
    rfl
  have htc : (get_statistics 0 30 c7db).total_count = 1001 := by
    rw [statistics_total_count, h1, List.length_replicate]
  have hsorted : (filteredRows c7db (statisticsQuery 0 30)).insertionSort createdDescLE
      = List.replicate 1001 emptyRow := by
    rw [h1]
    have hmem : ∀ b ∈ (List.replicate 1001 emptyRow).insertionSort createdDescLE,
        b = emptyRow := by
      intro b hb
      exact List.eq_of_mem_replicate ((List.mem_insertionSort _).mp hb)
    have hlen : ((List.replicate 1001 emptyRow).insertionSort createdDescLE).length
        = 1001 := by
      rw [List.length_insertionSort, List.length_replicate]
    calc (List.replicate (1001 : Nat) emptyRow).insertionSort createdDescLE
        = List.replicate
            (((List.replicate 1001 emptyRow).insertionSort createdDescLE).length)
            emptyRow := List.eq_replicate_of_mem hmem
      _ = List.replicate 1001 emptyRow := by rw [hlen]
  have hbase : baseItems c7db (statisticsQuery 0 30)
      = List.replicate 1001 (row_to_feedback emptyRow none) := by
    show ((filteredRows c7db (statisticsQuery 0 30)).insertionSort createdDescLE).map
        (fun r => row_to_feedback r (fetch_profile c7db r.user_id))
        = _
    rw [hsorted, List.map_replicate]
    rfl
  have hitems : (search c7db (statisticsQuery 0 30) none).items
      = List.replicate 1000 (row_to_feedback emptyRow none) := by
    rw [statistics_search_items, hbase, List.take_replicate]
    norm_num
  have hsum : (allSources.map (get_statistics 0 30 c7db).by_source).sum = 1000 := by
    rw [statistics_by_source]
    simp only [hitems]
    have hsb := sum_by_source (List.replicate 1000 (row_to_feedback emptyRow none))
    rwa [List.length_replicate] at hsb
  exact ⟨htc, hsum, by rw [hsum, htc]; omega⟩

/-- Witness for `get_statistics_spec` on a one-row store: the per-source
counts sum to `total_count` and `avg_nps` is the window mean. -/
theorem get_statistics_spec_witness :
    (allSources.map (get_statistics 0 30 c7db2).by_source).sum
        = (get_statistics 0 30 c7db2).total_count
    ∧ (get_statistics 0 30 c7db2).avg_nps
        = (if ((filteredRows c7db2 (statisticsQuery 0 30)).filterMap
                (fun r => r.nps_score)) = [] then none
           else some (((((filteredRows c7db2 (statisticsQuery 0 30)).filterMap
                  (fun r => r.nps_score)).map (fun n : Int => (n : Rat))).sum)
              / ((filteredRows c7db2 (statisticsQuery 0 30)).filterMap
                  (fun r => r.nps_score)).length)) :=
  (get_statistics_spec 0 30 c7db2).2.2 (by decide)
